import Mathlib

/-
Verification of the certificate issuance / verification / revocation subsystem
of the MediEventHub repository.

The development shallowly embeds:
  * src/server/utils/certificate.ts
      (generateCertificateNumber, validateCertificateNumber),
  * the storage layer for certificates in src/server/middleware/auth.ts
      (storage.generateCertificate, storage.getCertificateByNumber,
       storage.revokeCertificate),
  * the certificate HTTP routes
      (POST /registrations/:id/certificate,
       GET /certificates/verify/:number,
       POST /certificates/:id/revoke),
  * the certificates / event_registrations / events / users tables of the
    Drizzle schema.

Timestamps are modelled as natural numbers (epoch milliseconds); the database
is modelled as explicit lists of rows; the serial primary key of the
certificates table is modelled by a nextId counter.  The QR renderer
(QRCode.toDataURL) is an opaque parameter qrRender : String -> String taking
the encoded URL to the stored image payload.
-/

namespace MedieventHub

/-! ### Certificate number utilities (src/server/utils/certificate.ts) -/

/-- The nanoid alphabet used for the random certificate-number suffix:
customAlphabet of the decimal digits and the uppercase latin letters. -/
def nanoidAlphabet : List Char := "1234567890ABCDEFGHIJKLMNOPQRSTUVWXYZ".toList

/-- One character of the regex class of capital letters and digits. -/
def isUpperAlnum (c : Char) : Bool := c.isDigit || ('A' ≤ c && c ≤ 'Z')

/-- JavaScript s.slice(-2) for strings of length at least 2: the last two
characters.  Used on the four-digit year string. -/
def lastTwo (s : String) : String := ⟨s.data.drop (s.data.length - 2)⟩

/-- JavaScript s.padStart(2, zero): pad on the left with the zero character
up to length 2 (strings already of length at least 2 are unchanged). -/
def padStart2 (s : String) : String :=
  if s.data.length < 2 then ⟨List.replicate (2 - s.data.length) '0' ++ s.data⟩ else s

/-- generateCertificateNumber from src/server/utils/certificate.ts.  The date
is modelled by its year (getFullYear) and zero-based month (getMonth); the
nanoid(6) random suffix is an input.  Format: MEDEVENT-YYMM-SUFFIX. -/
def generateCertificateNumber (year monthIdx : Nat) (suffix : String) : String :=
  "MEDEVENT-" ++ lastTwo (Nat.repr year) ++ padStart2 (Nat.repr (monthIdx + 1))
    ++ "-" ++ suffix

/-- validateCertificateNumber from src/server/utils/certificate.ts: the
regex test MEDEVENT dash four digits dash six characters of class A-Z0-9,
anchored at both ends. -/
def validateCertificateNumber (s : String) : Bool :=
  match s.data with
  | a :: b :: c :: d :: e :: f :: g :: h :: i :: d1 :: d2 :: d3 :: d4 ::
      j :: x1 :: x2 :: x3 :: x4 :: x5 :: x6 :: [] =>
    ([a, b, c, d, e, f, g, h, i] == "MEDEVENT-".data) && (j == '-') &&
    (d1.isDigit && d2.isDigit && d3.isDigit && d4.isDigit) &&
    (isUpperAlnum x1 && isUpperAlnum x2 && isUpperAlnum x3 &&
     isUpperAlnum x4 && isUpperAlnum x5 && isUpperAlnum x6)
  | _ => false

/-! ### Data model (certificates and the joined tables of the schema) -/

/-- A row of the certificates table (relevant columns). -/
structure Certificate where
  id : Nat
  registrationId : Nat
  certificateNumber : String
  qrCode : String
  issuedDate : Nat
  isRevoked : Bool
  revokedReason : Option String
  revokedDate : Option Nat
  revokedById : Option Nat
  createdAt : Nat
  updatedAt : Nat
deriving DecidableEq

/-- A row of the event_registrations table (relevant columns). -/
structure Registration where
  id : Nat
  eventId : Nat
  userId : Nat
  status : String
  attendanceConfirmed : Bool
deriving DecidableEq

/-- A row of the events table (columns used by the verification response). -/
structure Event where
  id : Nat
  title : String
  startDate : Nat
  endDate : Nat
deriving DecidableEq

/-- A row of the users table (columns selected by the certificate joins). -/
structure User where
  id : Nat
  fullName : String
  email : String
  organization : Option String
  position : Option String
deriving DecidableEq

/-- The database state seen by the certificate subsystem. -/
structure Db where
  certificates : List Certificate
  certNextId : Nat
  registrations : List Registration
  events : List Event
  users : List User
deriving DecidableEq

/-! ### Storage layer (src/server/middleware/auth.ts) -/

/-- The update clause of the reissue branch of storage.generateCertificate:
clear the three revocation fields, refresh qrCode, issuedDate and updatedAt,
leave every other column alone. -/
def reissuedCert (qrCode : String) (now : Nat) (c : Certificate) : Certificate :=
  { c with
    isRevoked := false
    revokedReason := none
    revokedDate := none
    revokedById := none
    qrCode := qrCode
    issuedDate := now
    updatedAt := now }

/-- The values clause of the insert branch of storage.generateCertificate;
id is the serial default, issuedDate / createdAt / updatedAt take their
defaultNow defaults, isRevoked its false default. -/
def freshCert (db : Db) (registrationId : Nat) (qrCode certificateNumber : String)
    (now : Nat) : Certificate :=
  { id := db.certNextId
    registrationId := registrationId
    certificateNumber := certificateNumber
    qrCode := qrCode
    issuedDate := now
    isRevoked := false
    revokedReason := none
    revokedDate := none
    revokedById := none
    createdAt := now
    updatedAt := now }

/-- storage.generateCertificate: find the certificate of the registration;
if one exists and is revoked, clear the revocation fields and refresh
qrCode / issuedDate / updatedAt in place; if one exists and is active,
return it unchanged; otherwise insert a fresh row. -/
def storageGenerateCertificate (db : Db) (registrationId : Nat)
    (qrCode certificateNumber : String) (now : Nat) : Db × Certificate :=
  match db.certificates.find? (fun c => c.registrationId == registrationId) with
  | some existing =>
    if existing.isRevoked then
      ({ db with
          certificates :=
            db.certificates.map fun r =>
              if r.id = existing.id then reissuedCert qrCode now existing else r },
        reissuedCert qrCode now existing)
    else
      (db, existing)
  | none =>
    ({ db with
        certificates := db.certificates ++ [freshCert db registrationId qrCode certificateNumber now]
        certNextId := db.certNextId + 1 },
      freshCert db registrationId qrCode certificateNumber now)

/-- storage.getCertificateByNumber: lookup on the unique certificate_number
column. -/
def getCertificateByNumber (db : Db) (certificateNumber : String) : Option Certificate :=
  db.certificates.find? (fun c => c.certificateNumber == certificateNumber)

/-- The field update applied by storage.revokeCertificate's update clause. -/
def revokeUpdate (revokedById : Nat) (reason : String) (now : Nat)
    (c : Certificate) : Certificate :=
  { c with
    isRevoked := true
    revokedReason := some reason
    revokedDate := some now
    revokedById := some revokedById
    updatedAt := now }

/-- storage.revokeCertificate: unconditional update of the row with the given
id (no check of the current isRevoked flag); returning gives back the updated
row, or none when no row matched. -/
def storageRevokeCertificate (db : Db) (id revokedById : Nat) (reason : String)
    (now : Nat) : Db × Option Certificate :=
  ({ db with
      certificates :=
        db.certificates.map fun r =>
          if r.id = id then revokeUpdate revokedById reason now r else r },
    (db.certificates.find? (fun r => r.id == id)).map (revokeUpdate revokedById reason now))

/-! ### HTTP routes (registerRoutes in the routes file) -/

/-- The certificate number minted inline by POST /registrations/:id/certificate:
the string CERT dash Date.now() dash registrationId. -/
def certRouteNumber (nowMs registrationId : Nat) : String :=
  "CERT-" ++ Nat.repr nowMs ++ "-" ++ Nat.repr registrationId

/-- The verification URL embedded in the QR code:
base followed by /certificates/verify/ followed by the number. -/
def verificationUrl (base number : String) : String :=
  base ++ "/certificates/verify/" ++ number

/-- POST /registrations/:id/certificate.  The route mints certRouteNumber,
renders the QR of its verification URL via the opaque renderer, and calls
storage.generateCertificate.  It performs no lookup of the registration and
no eligibility check. -/
def issueCertificateRoute (qrRender : String → String) (db : Db)
    (registrationId nowMs : Nat) (base : String) : Db × Certificate :=
  let certificateNumber := certRouteNumber nowMs registrationId
  let qrCode := qrRender (verificationUrl base certificateNumber)
  storageGenerateCertificate db registrationId qrCode certificateNumber nowMs

/-- The JSON bodies the verification endpoint can answer with.
notFound is the 404 body with message Certificate not found and valid false
(there is no reason field); revokedResp is the 200 body with valid false,
revoked true and the stored reason and date; valid carries exactly the fields
of the 200 success body: certificateNumber, issuedDate, the event title and
dates, and the holder fullName, organization and position (no email);
serverError is the 500 body produced when a join row is missing and the
handler throws. -/
inductive VerifyResponse where
  | notFound : VerifyResponse
  | revokedResp : Option String → Option Nat → VerifyResponse
  | valid : String → Nat → String → Nat → Nat → String → Option String →
      Option String → VerifyResponse
  | serverError : VerifyResponse
deriving DecidableEq

/-- GET /certificates/verify/:number.  The input is used as-is for a ledger
lookup (validateCertificateNumber is never consulted); a missing row answers
notFound; a revoked row answers revokedResp; otherwise the joined
registration, event and user rows build the valid body. -/
def verifyCertificateRoute (db : Db) (number : String) : VerifyResponse :=
  match getCertificateByNumber db number with
  | none => .notFound
  | some c =>
    if c.isRevoked then .revokedResp c.revokedReason c.revokedDate
    else
      match db.registrations.find? (fun r => r.id == c.registrationId) with
      | none => .serverError
      | some reg =>
        match db.events.find? (fun e => e.id == reg.eventId),
              db.users.find? (fun u => u.id == reg.userId) with
        | some ev, some u =>
          .valid c.certificateNumber c.issuedDate ev.title ev.startDate ev.endDate
            u.fullName u.organization u.position
        | _, _ => .serverError

/-- Outcome of POST /certificates/:id/revoke: the 400 body when the reason is
falsy, the revoked row on success, or the 500 path when no row matched (the
handler then dereferences undefined and throws). -/
inductive RevokeOutcome where
  | reasonRequired : RevokeOutcome
  | ok : Certificate → RevokeOutcome
  | serverError : RevokeOutcome
deriving DecidableEq

/-- POST /certificates/:id/revoke: reject a falsy (empty) reason with the 400
response, otherwise call storage.revokeCertificate unconditionally. -/
def revokeCertificateRoute (db : Db) (certificateId actorId : Nat)
    (reason : String) (now : Nat) : Db × RevokeOutcome :=
  if reason.isEmpty then (db, .reasonRequired)
  else
    match storageRevokeCertificate db certificateId actorId reason now with
    | (db', some c) => (db', .ok c)
    | (db', none) => (db', .serverError)

/-! ### Ledger well-formedness -/

/-- The primary keys of the certificate rows. -/
def certIds (l : List Certificate) : List Nat := l.map (fun c => c.id)

/-- The registration_id column of the certificate rows. -/
def certRegIds (l : List Certificate) : List Nat := l.map (fun c => c.registrationId)

/-- Database well-formedness: the serial primary key is unique and below the
next serial value, and the registration_id unique constraint holds. -/
def LedgerWF (db : Db) : Prop :=
  (certIds db.certificates).Nodup ∧ (certRegIds db.certificates).Nodup ∧
    ∀ c ∈ db.certificates, c.id < db.certNextId

/-- Revocation-field consistency of one row: isRevoked true forces the three
revocation fields non-null, isRevoked false forces them null. -/
def revConsistent (c : Certificate) : Prop :=
  (c.isRevoked = true →
    c.revokedReason ≠ none ∧ c.revokedDate ≠ none ∧ c.revokedById ≠ none) ∧
  (c.isRevoked = false →
    c.revokedReason = none ∧ c.revokedDate = none ∧ c.revokedById = none)

instance (c : Certificate) : Decidable (revConsistent c) := by
  unfold revConsistent; infer_instance

/-- Equality of two user rows everywhere except possibly the email column. -/
def sameExceptEmail (u v : User) : Prop :=
  u.id = v.id ∧ u.fullName = v.fullName ∧
    u.organization = v.organization ∧ u.position = v.position

/-! ### Sample rows used by the concrete instantiations below -/

/-- A sample active certificate row. -/
def certActive : Certificate :=
  { id := 1, registrationId := 1, certificateNumber := "CERT-100-1",
    qrCode := "qr1", issuedDate := 100, isRevoked := false,
    revokedReason := none, revokedDate := none, revokedById := none,
    createdAt := 100, updatedAt := 100 }

/-- The same row after a revocation. -/
def certRevoked : Certificate :=
  { id := 1, registrationId := 1, certificateNumber := "CERT-100-1",
    qrCode := "qr1", issuedDate := 100, isRevoked := true,
    revokedReason := some "duplicate issuance", revokedDate := some 200,
    revokedById := some 2, createdAt := 100, updatedAt := 200 }

/-- A registration with confirmed attendance. -/
def regRow : Registration :=
  { id := 1, eventId := 1, userId := 1, status := "approved",
    attendanceConfirmed := true }

/-- A registration whose attendance was never confirmed. -/
def regNotAttended : Registration :=
  { id := 1, eventId := 1, userId := 1, status := "approved",
    attendanceConfirmed := false }

/-- A sample event row. -/
def evRow : Event :=
  { id := 1, title := "Cardiology Summit", startDate := 10, endDate := 20 }

/-- A sample user row. -/
def userRow : User :=
  { id := 1, fullName := "Alice Smith", email := "alice@example.com",
    organization := some "Hospital A", position := none }

/-- The same user row with a different email address. -/
def userRowB : User := { userRow with email := "other@example.com" }

/-- A database holding one active certificate and its joined rows. -/
def dbActive : Db :=
  { certificates := [certActive], certNextId := 2,
    registrations := [regRow], events := [evRow], users := [userRow] }

/-- dbActive with only the user email changed. -/
def dbActiveB : Db := { dbActive with users := [userRowB] }

/-- A database holding one revoked certificate and its joined rows. -/
def dbRevoked : Db :=
  { certificates := [certRevoked], certNextId := 2,
    registrations := [regRow], events := [evRow], users := [userRow] }

/-- A database with no certificates. -/
def dbEmpty : Db :=
  { certificates := [], certNextId := 1,
    registrations := [], events := [], users := [] }

/-- A database whose single registration is not attendance-confirmed and
which holds no certificate. -/
def dbNotEligible : Db :=
  { certificates := [], certNextId := 1,
    registrations := [regNotAttended], events := [evRow], users := [userRow] }

/-! ### Path equations of storage.generateCertificate -/

/-- Insert path: no certificate exists for the registration. -/
theorem generate_insert_eq (db : Db) (rid : Nat) (qr n : String) (now : Nat)
    (hf : db.certificates.find? (fun c => c.registrationId == rid) = none) :
    storageGenerateCertificate db rid qr n now =
      ({ db with
          certificates := db.certificates ++ [freshCert db rid qr n now]
          certNextId := db.certNextId + 1 },
        freshCert db rid qr n now) := by
  unfold storageGenerateCertificate
  rw [hf]

/-- Idempotent path: an active certificate exists for the registration. -/
theorem generate_active_eq (db : Db) (rid : Nat) (qr n : String) (now : Nat)
    (c : Certificate)
    (hf : db.certificates.find? (fun x => x.registrationId == rid) = some c)
    (hactive : c.isRevoked = false) :
    storageGenerateCertificate db rid qr n now = (db, c) := by
  unfold storageGenerateCertificate
  rw [hf]
  simp [hactive]

/-- Reissue path: a revoked certificate exists for the registration. -/
theorem generate_reissue_eq (db : Db) (rid : Nat) (qr n : String) (now : Nat)
    (c : Certificate)
    (hf : db.certificates.find? (fun x => x.registrationId == rid) = some c)
    (hrev : c.isRevoked = true) :
    storageGenerateCertificate db rid qr n now =
      ({ db with certificates :=
          db.certificates.map fun r => if r.id = c.id then reissuedCert qr now c else r },
        reissuedCert qr now c) := by
  unfold storageGenerateCertificate
  rw [hf]
  simp [hrev]

/-! ### Claim C2: idempotent issuance on an active certificate -/

/-- Claim C2: for every registration that already has an active (non-revoked)
certificate, storage.generateCertificate returns that existing certificate
unchanged — the same row — with no new row inserted and no field modified,
regardless of the freshly generated number and QR code passed in. -/
theorem issuance_idempotent_on_active_certificate
    (db : Db) (rid now : Nat) (qr n : String) (c : Certificate)
    (hfind : db.certificates.find? (fun x => x.registrationId == rid) = some c)
    (hactive : c.isRevoked = false) :
    storageGenerateCertificate db rid qr n now = (db, c) :=
  generate_active_eq db rid qr n now c hfind hactive

/-- Witness for C2: re-issuing on a ledger whose registration 1 already holds
an active certificate returns that row and leaves the database untouched. -/
theorem issuance_idempotent_on_active_certificate_witness :
    storageGenerateCertificate dbActive 1 "newqr" "CERT-999-1" 999 = (dbActive, certActive) :=
  issuance_idempotent_on_active_certificate dbActive 1 999 "newqr" "CERT-999-1" certActive
    (by decide) (by decide)

/-! ### Claim C5: reissue-after-revoke frame condition -/

/-- Claim C5: reissuing an existing revoked certificate clears isRevoked,
nulls revokedReason / revokedDate / revokedById, refreshes issuedDate, qrCode
and updatedAt, and leaves every other column — certificateNumber, id,
registrationId, createdAt — unchanged; the ledger is updated in place at the
row with that id. -/
theorem reissue_frame_condition
    (db : Db) (rid now : Nat) (qr n : String) (c : Certificate)
    (hfind : db.certificates.find? (fun x => x.registrationId == rid) = some c)
    (hrev : c.isRevoked = true) :
    (storageGenerateCertificate db rid qr n now).2.id = c.id ∧
    (storageGenerateCertificate db rid qr n now).2.registrationId = c.registrationId ∧
    (storageGenerateCertificate db rid qr n now).2.certificateNumber = c.certificateNumber ∧
    (storageGenerateCertificate db rid qr n now).2.createdAt = c.createdAt ∧
    (storageGenerateCertificate db rid qr n now).2.isRevoked = false ∧
    (storageGenerateCertificate db rid qr n now).2.revokedReason = none ∧
    (storageGenerateCertificate db rid qr n now).2.revokedDate = none ∧
    (storageGenerateCertificate db rid qr n now).2.revokedById = none ∧
    (storageGenerateCertificate db rid qr n now).2.qrCode = qr ∧
    (storageGenerateCertificate db rid qr n now).2.issuedDate = now ∧
    (storageGenerateCertificate db rid qr n now).2.updatedAt = now ∧
    (storageGenerateCertificate db rid qr n now).1 =
      { db with certificates :=
          db.certificates.map fun r =>
            if r.id = c.id then (storageGenerateCertificate db rid qr n now).2 else r } := by
  rw [generate_reissue_eq db rid qr n now c hfind hrev]
  simp [reissuedCert]

/-- Witness for C5 on a concrete ledger holding one revoked certificate. -/
theorem reissue_frame_condition_witness :
    (storageGenerateCertificate dbRevoked 1 "newqr" "CERT-999-1" 999).2.certificateNumber =
        certRevoked.certificateNumber ∧
    (storageGenerateCertificate dbRevoked 1 "newqr" "CERT-999-1" 999).2.isRevoked = false ∧
    (storageGenerateCertificate dbRevoked 1 "newqr" "CERT-999-1" 999).2.revokedReason = none :=
  by
    have h := reissue_frame_condition dbRevoked 1 999 "newqr" "CERT-999-1" certRevoked
      (by decide) (by decide)
    exact ⟨h.2.2.1, h.2.2.2.2.1, h.2.2.2.2.2.1⟩

/-! ### Claim C3: the verification endpoint and malformed numbers -/

/-- Counterexample to C3 as stated: the verification endpoint performs no
format check.  The string CERT-100-1 is rejected by
validateCertificateNumber, yet on a ledger that stores it (as the issuance
endpoint in fact does) the verification endpoint answers valid rather than
the claimed not-found result, so a ledger lookup is performed and decides
the outcome. -/
theorem verify_malformed_number_found_valid_cex :
    validateCertificateNumber "CERT-100-1" = false ∧
    verifyCertificateRoute dbActive "CERT-100-1" =
      VerifyResponse.valid "CERT-100-1" 100 "Cardiology Summit" 10 20
        "Alice Smith" (some "Hospital A") none := by
  decide

/-- Amended C3: the endpoint short-circuits on nothing; it always performs
the getCertificateByNumber ledger lookup on the raw input, and any input —
malformed or not — that matches no stored row is answered with the not-found
body (valid false); a malformed number that matches a stored row is served
like any other. -/
theorem verify_not_found_when_no_row
    (db : Db) (number : String)
    (h : getCertificateByNumber db number = none) :
    verifyCertificateRoute db number = VerifyResponse.notFound := by
  unfold verifyCertificateRoute
  rw [h]

/-- Witness for the amended C3 at the spec's own example input. -/
theorem verify_not_found_when_no_row_witness :
    verifyCertificateRoute dbEmpty "not-a-real-number" = VerifyResponse.notFound :=
  verify_not_found_when_no_row dbEmpty "not-a-real-number" rfl

/-! ### Claim C4: revoking an already-revoked certificate -/

/-- Counterexample to C4 as stated: on a ledger whose certificate 1 is
already revoked (reason duplicate issuance), a second revoke call succeeds —
the route answers with the updated row, not with an AlreadyRevoked error —
and overwrites revokedReason, revokedDate and revokedById. -/
theorem revoke_twice_succeeds_and_mutates_cex :
    certRevoked.isRevoked = true ∧
    (revokeCertificateRoute dbRevoked 1 3 "second reason" 300).2 =
      RevokeOutcome.ok
        { certRevoked with
          revokedReason := some "second reason"
          revokedDate := some 300
          revokedById := some 3
          updatedAt := 300 } ∧
    ((revokeCertificateRoute dbRevoked 1 3 "second reason" 300).1).certificates ≠
      dbRevoked.certificates := by
  decide

/-- Amended C4: the revoke route checks only that the reason is non-empty;
whenever a row with the requested id exists — revoked already or not — the
call succeeds and unconditionally overwrites the revocation fields with the
new actor, reason and timestamp. -/
theorem revoke_overwrites_already_revoked
    (db : Db) (certId actorId now : Nat) (reason : String) (c : Certificate)
    (hfind : db.certificates.find? (fun r => r.id == certId) = some c)
    (hne : reason.isEmpty = false) :
    revokeCertificateRoute db certId actorId reason now =
      ({ db with certificates :=
          db.certificates.map fun r =>
            if r.id = certId then revokeUpdate actorId reason now r else r },
        RevokeOutcome.ok (revokeUpdate actorId reason now c)) := by
  unfold revokeCertificateRoute storageRevokeCertificate
  rw [hfind]
  simp [hne]

/-- Witness for the amended C4: the concrete second revocation from the
counterexample, produced by the theorem. -/
theorem revoke_overwrites_already_revoked_witness :
    revokeCertificateRoute dbRevoked 1 3 "second reason" 300 =
      ({ dbRevoked with certificates :=
          dbRevoked.certificates.map fun r =>
            if r.id = 1 then revokeUpdate 3 "second reason" 300 r else r },
        RevokeOutcome.ok (revokeUpdate 3 "second reason" 300 certRevoked)) :=
  revoke_overwrites_already_revoked dbRevoked 1 3 300 "second reason" certRevoked
    (by decide) (by decide)

/-! ### Claim C6: what the stored QR code encodes -/

/-- Counterexample to C6 as stated: on the reissue-after-revoke path the
route renders the QR for the freshly minted number CERT-300-1 but the row
keeps its previous certificateNumber CERT-100-1, so the stored qrCode (the
rendering of the verification URL, with the renderer instantiated as the
identity) does not encode the URL of the row's own stored number. -/
theorem reissue_qr_encodes_other_number_cex :
    (issueCertificateRoute (fun s => s) dbRevoked 1 300 "https://host").2.qrCode ≠
      verificationUrl "https://host"
        ((issueCertificateRoute (fun s => s) dbRevoked 1 300 "https://host").2.certificateNumber) ∧
    ((issueCertificateRoute (fun s => s) dbRevoked 1 300 "https://host").1).certificates.map
        (fun c => (c.certificateNumber, c.qrCode)) =
      [("CERT-100-1", "https://host/certificates/verify/CERT-300-1")] := by
  decide

/-- Amended C6: on the fresh-insert path the stored qrCode is the rendering
of the verification URL of the row's stored number; on the
reissue-after-revoke path the row keeps its previous certificateNumber while
its qrCode becomes the rendering of the URL of the freshly generated
certRouteNumber, so the two disagree whenever the two numbers differ.  This
theorem is the reissue half; the insert half is
issuance_insert_qr_matches_number below. -/
theorem reissue_keeps_number_stores_new_url
    (qrRender : String → String) (db : Db) (rid nowMs : Nat) (base : String)
    (c : Certificate)
    (hfind : db.certificates.find? (fun x => x.registrationId == rid) = some c)
    (hrev : c.isRevoked = true) :
    (issueCertificateRoute qrRender db rid nowMs base).2.certificateNumber =
      c.certificateNumber ∧
    (issueCertificateRoute qrRender db rid nowMs base).2.qrCode =
      qrRender (verificationUrl base (certRouteNumber nowMs rid)) := by
  unfold issueCertificateRoute
  rw [generate_reissue_eq db rid _ _ nowMs c hfind hrev]
  simp [reissuedCert]

/-- Witness for the amended C6 on the concrete revoked ledger. -/
theorem reissue_keeps_number_stores_new_url_witness :
    (issueCertificateRoute (fun s => s) dbRevoked 1 300 "https://host").2.certificateNumber =
      certRevoked.certificateNumber ∧
    (issueCertificateRoute (fun s => s) dbRevoked 1 300 "https://host").2.qrCode =
      verificationUrl "https://host" (certRouteNumber 300 1) :=
  reissue_keeps_number_stores_new_url (fun s => s) dbRevoked 1 300 "https://host"
    certRevoked (by decide) (by decide)

/-- The insert half of the amended C6: a freshly inserted row stores the QR
rendering of the verification URL of its own stored number. -/
theorem issuance_insert_qr_matches_number
    (qrRender : String → String) (db : Db) (rid nowMs : Nat) (base : String)
    (hf : db.certificates.find? (fun c => c.registrationId == rid) = none) :
    (issueCertificateRoute qrRender db rid nowMs base).2.qrCode =
      qrRender (verificationUrl base
        ((issueCertificateRoute qrRender db rid nowMs base).2.certificateNumber)) := by
  unfold issueCertificateRoute
  rw [generate_insert_eq db rid _ _ nowMs hf]
  simp [freshCert]

/-! ### Claim C7: well-formedness of stored certificate numbers -/

/-- Counterexample to C7 as stated: the issuance endpoint mints its number
inline as CERT-Date.now()-registrationId instead of calling
generateCertificateNumber; the row stored for registration 42 at epoch 999
carries the number CERT-999-42, which validateCertificateNumber rejects. -/
theorem issuance_route_number_not_well_formed_cex :
    ((issueCertificateRoute (fun s => s) dbEmpty 42 999 "https://host").2).certificateNumber =
      "CERT-999-42" ∧
    validateCertificateNumber "CERT-999-42" = false := by
  decide

/-! ### Claim C9: no eligibility check on issuance -/

/-- Counterexample to C9 as stated: on a database whose only registration has
attendanceConfirmed false, the issuance route does not fail — it inserts a
fresh active certificate row. -/
theorem issuance_ignores_eligibility_cex :
    regNotAttended.attendanceConfirmed = false ∧
    ((issueCertificateRoute (fun s => s) dbNotEligible 1 7 "https://host").1).certificates.length = 1 ∧
    (issueCertificateRoute (fun s => s) dbNotEligible 1 7 "https://host").2.isRevoked = false := by
  decide

/-- Amended C9: the issuance route performs no eligibility check at all — it
never reads the event_registrations table, so its outcome (the returned
certificate and the resulting certificate rows) is identical on any two
databases that differ only in their registrations, in particular in whether
attendance was confirmed. -/
theorem issuance_independent_of_registrations
    (qrRender : String → String) (db : Db) (rs : List Registration)
    (rid nowMs : Nat) (base : String) :
    (issueCertificateRoute qrRender { db with registrations := rs } rid nowMs base).2 =
      (issueCertificateRoute qrRender db rid nowMs base).2 ∧
    ((issueCertificateRoute qrRender { db with registrations := rs } rid nowMs base).1).certificates =
      ((issueCertificateRoute qrRender db rid nowMs base).1).certificates := by
  unfold issueCertificateRoute storageGenerateCertificate
  cases hf : db.certificates.find? (fun c => c.registrationId == rid) with
  | none => simp [hf, freshCert]
  | some existing =>
    by_cases hrev : existing.isRevoked = true
    · simp [hf, hrev]
    · simp [hf, hrev]

/-! ### Claim C8: revocation-field consistency is preserved -/

/-- Claim C8: in every certificate row of a database whose rows are
revocation-consistent, running either mutator — storage.generateCertificate
(insert, reissue-after-revoke or idempotent return) or
storage.revokeCertificate — again yields only revocation-consistent rows:
isRevoked true forces the three revocation fields non-null and isRevoked
false forces them null. -/
theorem revocation_fields_consistency_invariant
    (db : Db) (h : ∀ c ∈ db.certificates, revConsistent c)
    (rid certId actorId now : Nat) (qr n reason : String) :
    (∀ c ∈ (storageGenerateCertificate db rid qr n now).1.certificates, revConsistent c) ∧
    (∀ c ∈ (storageRevokeCertificate db certId actorId reason now).1.certificates,
      revConsistent c) := by
  constructor
  · cases hf : db.certificates.find? (fun c => c.registrationId == rid) with
    | none =>
      rw [generate_insert_eq db rid qr n now hf]
      intro c hc
      rcases List.mem_append.mp hc with hc | hc
      · exact h c hc
      · rw [List.mem_singleton.mp hc]
        simp [revConsistent, freshCert]
    | some existing =>
      by_cases hrev : existing.isRevoked = true
      · rw [generate_reissue_eq db rid qr n now existing hf hrev]
        intro c hc
        obtain ⟨r, hr, rfl⟩ := List.mem_map.mp hc
        by_cases ht : r.id = existing.id
        · simp [ht, revConsistent, reissuedCert]
        · simp only [ht, if_false]
          exact h r hr
      · have hact : existing.isRevoked = false := by simpa using hrev
        rw [generate_active_eq db rid qr n now existing hf hact]
        exact h
  · intro c hc
    obtain ⟨r, hr, rfl⟩ := List.mem_map.mp hc
    by_cases ht : r.id = certId
    · simp [ht, revConsistent, revokeUpdate]
    · simp only [ht, if_false]
      exact h r hr

/-- Witness for C8 on the concrete one-row revoked ledger. -/
theorem revocation_fields_consistency_invariant_witness :
    (∀ c ∈ (storageGenerateCertificate dbRevoked 1 "q" "CERT-9-1" 9).1.certificates,
      revConsistent c) ∧
    (∀ c ∈ (storageRevokeCertificate dbRevoked 1 3 "late withdrawal" 9).1.certificates,
      revConsistent c) :=
  revocation_fields_consistency_invariant dbRevoked (by decide) 1 1 3 9 "q" "CERT-9-1"
    "late withdrawal"

/-! ### Claim C10: the public verification response never depends on email -/

/-- Lookups by user id in two user tables that agree everywhere except the
email column produce rows related the same way. -/
theorem find_user_sameExceptEmail {us vs : List User}
    (h : List.Forall₂ sameExceptEmail us vs) (k : Nat) :
    Option.Rel sameExceptEmail
      (us.find? (fun u => u.id == k)) (vs.find? (fun u => u.id == k)) := by
  induction h with
  | nil => exact Option.Rel.none
  | cons huv hl ih =>
    rename_i u v us' vs'
    by_cases hk : (u.id == k) = true
    · have hk' : (v.id == k) = true := by rw [← huv.1]; exact hk
      rw [List.find?_cons_of_pos (p := fun x : User => x.id == k) us' hk,
        List.find?_cons_of_pos (p := fun x : User => x.id == k) vs' hk']
      exact Option.Rel.some huv
    · have hk' : ¬(v.id == k) = true := by rw [← huv.1]; exact hk
      rw [List.find?_cons_of_neg (p := fun x : User => x.id == k) us' hk,
        List.find?_cons_of_neg (p := fun x : User => x.id == k) vs' hk']
      exact ih

/-- Claim C10: the public verification response discloses of the holder only
fullName, organization and position (see the valid constructor of
VerifyResponse); on any two database states that agree on certificates,
registrations and events and whose user rows differ at most in the email
column, the verification endpoint answers identically for every input. -/
theorem verify_response_independent_of_email
    (db1 db2 : Db) (hc : db1.certificates = db2.certificates)
    (hr : db1.registrations = db2.registrations) (he : db1.events = db2.events)
    (hu : List.Forall₂ sameExceptEmail db1.users db2.users) (number : String) :
    verifyCertificateRoute db1 number = verifyCertificateRoute db2 number := by
  unfold verifyCertificateRoute getCertificateByNumber
  rw [hc, hr, he]
  cases db2.certificates.find? (fun c => c.certificateNumber == number) with
  | none => rfl
  | some c =>
    by_cases hrev : c.isRevoked = true
    · simp [hrev]
    · have hact : c.isRevoked = false := by simpa using hrev
      simp only [hact, Bool.false_eq_true, if_false]
      cases db2.registrations.find? (fun r => r.id == c.registrationId) with
      | none => rfl
      | some reg =>
        dsimp only
        have hrel := find_user_sameExceptEmail hu reg.userId
        generalize hg1 : List.find? (fun u => u.id == reg.userId) db1.users = o1 at hrel ⊢
        generalize hg2 : List.find? (fun u => u.id == reg.userId) db2.users = o2 at hrel ⊢
        cases db2.events.find? (fun e => e.id == reg.eventId) with
        | none => cases hrel <;> rfl
        | some ev =>
          cases hrel with
          | some huv =>
            rename_i u v
            obtain ⟨h1, h2, h3, h4⟩ := huv
            dsimp only
            rw [h2, h3, h4]
          | none => rfl

/-- Witness for C10: the same active ledger with two different holder emails
verifies identically. -/
theorem verify_response_independent_of_email_witness :
    verifyCertificateRoute dbActive "CERT-100-1" =
      verifyCertificateRoute dbActiveB "CERT-100-1" :=
  verify_response_independent_of_email dbActive dbActiveB rfl rfl rfl
    (List.Forall₂.cons ⟨rfl, rfl, rfl, rfl⟩ List.Forall₂.nil) "CERT-100-1"

/-! ### Claim C1: at most one certificate row per registration, never deleted -/

/-- Updating rows in place at one id, with an update that preserves id and
registrationId there, changes neither the id column nor the
registration_id column of the ledger. -/
theorem cert_cols_map_ite (l : List Certificate) (t : Nat) (f : Certificate → Certificate)
    (h : ∀ r ∈ l, r.id = t → (f r).id = r.id ∧ (f r).registrationId = r.registrationId) :
    certIds (l.map fun r => if r.id = t then f r else r) = certIds l ∧
    certRegIds (l.map fun r => if r.id = t then f r else r) = certRegIds l := by
  constructor
  · unfold certIds
    rw [List.map_map]
    refine List.map_congr_left ?_
    intro r hr
    by_cases ht : r.id = t
    · simp [Function.comp, ht, (h r hr ht).1]
    · simp [Function.comp, ht]
  · unfold certRegIds
    rw [List.map_map]
    refine List.map_congr_left ?_
    intro r hr
    by_cases ht : r.id = t
    · simp [Function.comp, ht, (h r hr ht).2]
    · simp [Function.comp, ht]

/-- An in-place update at one id deletes no row: every old row still has a
successor row with its id and registrationId. -/
theorem cert_rows_map_ite_no_delete (l : List Certificate) (t : Nat)
    (f : Certificate → Certificate)
    (h : ∀ r ∈ l, r.id = t → (f r).id = r.id ∧ (f r).registrationId = r.registrationId) :
    ∀ c ∈ l, ∃ c' ∈ (l.map fun r => if r.id = t then f r else r),
      c'.id = c.id ∧ c'.registrationId = c.registrationId := by
  intro c hc
  refine ⟨(fun r => if r.id = t then f r else r) c, List.mem_map_of_mem _ hc, ?_, ?_⟩
  · by_cases ht : c.id = t
    · simpa [ht] using (h c hc ht).1
    · simp [ht]
  · by_cases ht : c.id = t
    · simpa [ht] using (h c hc ht).2
    · simp [ht]

/-- A ledger whose id column is unchanged keeps its id bound. -/
theorem bound_of_certIds_eq {l l' : List Certificate} {N : Nat}
    (he : certIds l' = certIds l) (hb : ∀ c ∈ l, c.id < N) :
    ∀ c ∈ l', c.id < N := by
  intro c hc
  have hm : c.id ∈ certIds l := he ▸ List.mem_map_of_mem (fun c => c.id) hc
  obtain ⟨r, hr, hrid⟩ := List.mem_map.mp hm
  exact hrid ▸ hb r hr

/-- Claim C1: on a well-formed ledger (unique ids below the serial counter,
unique registrationIds), both mutators preserve well-formedness — so at most
one certificate row per registration ever exists — and delete no row; and
storage.generateCertificate does exactly one of: insert a fresh row when
none exists for the registration, update the existing row in place when it
is revoked, or return the existing row with the database unchanged when it
is active. -/
theorem ledger_at_most_one_certificate_per_registration
    (db : Db) (hwf : LedgerWF db) (rid certId actorId now : Nat) (qr n reason : String) :
    LedgerWF (storageGenerateCertificate db rid qr n now).1 ∧
    (∀ c ∈ db.certificates,
      ∃ c' ∈ (storageGenerateCertificate db rid qr n now).1.certificates,
        c'.id = c.id ∧ c'.registrationId = c.registrationId) ∧
    LedgerWF (storageRevokeCertificate db certId actorId reason now).1 ∧
    (∀ c ∈ db.certificates,
      ∃ c' ∈ (storageRevokeCertificate db certId actorId reason now).1.certificates,
        c'.id = c.id ∧ c'.registrationId = c.registrationId) ∧
    (db.certificates.find? (fun c => c.registrationId == rid) = none →
      (storageGenerateCertificate db rid qr n now).1.certificates =
        db.certificates ++ [freshCert db rid qr n now]) ∧
    (∀ c, db.certificates.find? (fun x => x.registrationId == rid) = some c →
      c.isRevoked = true →
      (storageGenerateCertificate db rid qr n now).1.certificates =
        db.certificates.map fun r => if r.id = c.id then reissuedCert qr now c else r) ∧
    (∀ c, db.certificates.find? (fun x => x.registrationId == rid) = some c →
      c.isRevoked = false → storageGenerateCertificate db rid qr n now = (db, c)) := by
  obtain ⟨hids, hregs, hbound⟩ := hwf
  have hrev_h : ∀ r ∈ db.certificates, r.id = certId →
      (revokeUpdate actorId reason now r).id = r.id ∧
      (revokeUpdate actorId reason now r).registrationId = r.registrationId := by
    intro r _ _
    exact ⟨rfl, rfl⟩
  have hrev_cols := cert_cols_map_ite db.certificates certId
    (revokeUpdate actorId reason now) hrev_h
  have hrev_wf : LedgerWF (storageRevokeCertificate db certId actorId reason now).1 := by
    refine ⟨?_, ?_, ?_⟩
    · show (certIds (db.certificates.map fun r =>
        if r.id = certId then revokeUpdate actorId reason now r else r)).Nodup
      rw [hrev_cols.1]
      exact hids
    · show (certRegIds (db.certificates.map fun r =>
        if r.id = certId then revokeUpdate actorId reason now r else r)).Nodup
      rw [hrev_cols.2]
      exact hregs
    · exact bound_of_certIds_eq hrev_cols.1 hbound
  have hrev_nodel := cert_rows_map_ite_no_delete db.certificates certId
    (revokeUpdate actorId reason now) hrev_h
  cases hf : db.certificates.find? (fun c => c.registrationId == rid) with
  | none =>
    have heq := generate_insert_eq db rid qr n now hf
    have hgen_wf : LedgerWF (storageGenerateCertificate db rid qr n now).1 := by
      rw [heq]
      refine ⟨?_, ?_, ?_⟩
      · show (certIds (db.certificates ++ [freshCert db rid qr n now])).Nodup
        unfold certIds
        rw [List.map_append, List.nodup_append]
        refine ⟨hids, by simp, ?_⟩
        intro a ha hb
        simp [freshCert] at hb
        obtain ⟨r, hr, hrid⟩ := List.mem_map.mp ha
        have := hbound r hr
        omega
      · show (certRegIds (db.certificates ++ [freshCert db rid qr n now])).Nodup
        unfold certRegIds
        rw [List.map_append, List.nodup_append]
        refine ⟨hregs, by simp, ?_⟩
        intro a ha hb
        simp [freshCert] at hb
        obtain ⟨r, hr, hrid⟩ := List.mem_map.mp ha
        have hne := List.find?_eq_none.mp hf r hr
        simp only [beq_iff_eq] at hne
        exact hne (hrid.trans hb)
      · show ∀ c ∈ db.certificates ++ [freshCert db rid qr n now],
          c.id < db.certNextId + 1
        intro c hc
        rcases List.mem_append.mp hc with hc | hc
        · exact Nat.lt_succ_of_lt (hbound c hc)
        · rw [List.mem_singleton.mp hc]
          simp [freshCert]
    have hgen_nodel : ∀ c ∈ db.certificates,
        ∃ c' ∈ (storageGenerateCertificate db rid qr n now).1.certificates,
          c'.id = c.id ∧ c'.registrationId = c.registrationId := by
      intro c hc
      rw [heq]
      exact ⟨c, List.mem_append_left _ hc, rfl, rfl⟩
    refine ⟨hgen_wf, hgen_nodel, hrev_wf, hrev_nodel, ?_, ?_, ?_⟩
    · intro _
      rw [heq]
    · intro c hcontra
      exact absurd hcontra (by simp)
    · intro c hcontra
      exact absurd hcontra (by simp)
  | some existing =>
    have hmem := List.mem_of_find?_eq_some hf
    have hinj := List.inj_on_of_nodup_map
      (show (db.certificates.map fun c => c.id).Nodup from hids)
    by_cases hrevd : existing.isRevoked = true
    · have heq := generate_reissue_eq db rid qr n now existing hf hrevd
      have hh : ∀ r ∈ db.certificates, r.id = existing.id →
          (reissuedCert qr now existing).id = r.id ∧
          (reissuedCert qr now existing).registrationId = r.registrationId := by
        intro r hr hid
        have hre : r = existing := hinj hr hmem hid
        subst hre
        exact ⟨rfl, rfl⟩
      have hcols := cert_cols_map_ite db.certificates existing.id
        (fun _ => reissuedCert qr now existing) hh
      have hgen_wf : LedgerWF (storageGenerateCertificate db rid qr n now).1 := by
        rw [heq]
        refine ⟨?_, ?_, ?_⟩
        · show (certIds (db.certificates.map fun r =>
            if r.id = existing.id then reissuedCert qr now existing else r)).Nodup
          rw [hcols.1]
          exact hids
        · show (certRegIds (db.certificates.map fun r =>
            if r.id = existing.id then reissuedCert qr now existing else r)).Nodup
          rw [hcols.2]
          exact hregs
        · exact bound_of_certIds_eq hcols.1 hbound
      have hgen_nodel : ∀ c ∈ db.certificates,
          ∃ c' ∈ (storageGenerateCertificate db rid qr n now).1.certificates,
            c'.id = c.id ∧ c'.registrationId = c.registrationId := by
        rw [heq]
        exact cert_rows_map_ite_no_delete db.certificates existing.id
          (fun _ => reissuedCert qr now existing) hh
      refine ⟨hgen_wf, hgen_nodel, hrev_wf, hrev_nodel, ?_, ?_, ?_⟩
      · intro hcontra
        exact absurd hcontra (by simp)
      · intro c hsome hcrev
        have hce : existing = c := Option.some.inj hsome
        subst hce
        rw [heq]
      · intro c hsome hcact
        have hce : existing = c := Option.some.inj hsome
        subst hce
        rw [hrevd] at hcact
        exact absurd hcact (by simp)
    · have hact : existing.isRevoked = false := by simpa using hrevd
      have heq := generate_active_eq db rid qr n now existing hf hact
      refine ⟨?_, ?_, hrev_wf, hrev_nodel, ?_, ?_, ?_⟩
      · rw [heq]
        exact ⟨hids, hregs, hbound⟩
      · intro c hc
        rw [heq]
        exact ⟨c, hc, rfl, rfl⟩
      · intro hcontra
        exact absurd hcontra (by simp)
      · intro c hsome hcrev
        have hce : existing = c := Option.some.inj hsome
        subst hce
        rw [hact] at hcrev
        exact absurd hcrev (by simp)
      · intro c hsome _
        have hce : existing = c := Option.some.inj hsome
        subst hce
        exact heq

/-- Witness for C1 on the concrete one-row revoked ledger. -/
theorem ledger_at_most_one_certificate_per_registration_witness :
    LedgerWF (storageGenerateCertificate dbRevoked 1 "q" "CERT-9-1" 9).1 ∧
    LedgerWF (storageRevokeCertificate dbRevoked 1 3 "late withdrawal" 9).1 :=
  have h := ledger_at_most_one_certificate_per_registration dbRevoked
    (by refine ⟨?_, ?_, ?_⟩ <;> decide) 1 1 3 9 "q" "CERT-9-1" "late withdrawal"
  ⟨h.1, h.2.2.1⟩

/-! ### Amended C7: generateCertificateNumber always passes the validator -/

/-- The append of strings concatenates their character data. -/
theorem data_append (s t : String) : (s ++ t).data = s.data ++ t.data := rfl

/-- Nat.digitChar of a value below ten is a decimal digit character. -/
theorem digitChar_isDigit {m : Nat} (h : m < 10) : (Nat.digitChar m).isDigit = true := by
  interval_cases m <;> decide

/-- Every character accumulated by Nat.toDigitsCore in base ten is a decimal
digit, provided the seed characters are. -/
theorem toDigitsCore_digits (fuel : Nat) :
    ∀ (n : Nat) (ds : List Char), (∀ c ∈ ds, c.isDigit = true) →
      ∀ c ∈ Nat.toDigitsCore 10 fuel n ds, c.isDigit = true := by
  induction fuel with
  | zero =>
    intro n ds h c hc
    simpa [Nat.toDigitsCore] using h c hc
  | succ fuel ih =>
    intro n ds h c hc
    simp only [Nat.toDigitsCore] at hc
    by_cases h0 : n / 10 = 0
    · rw [if_pos h0] at hc
      rcases List.mem_cons.mp hc with h1 | h1
      · rw [h1]
        exact digitChar_isDigit (Nat.mod_lt _ (by omega))
      · exact h c h1
    · rw [if_neg h0] at hc
      refine ih (n / 10) (Nat.digitChar (n % 10) :: ds) ?_ c hc
      intro d hd
      rcases List.mem_cons.mp hd with h1 | h1
      · rw [h1]
        exact digitChar_isDigit (Nat.mod_lt _ (by omega))
      · exact h d h1

/-- Every character of the decimal representation of a natural number is a
decimal digit. -/
theorem repr_digits (n : Nat) : ∀ c ∈ (Nat.repr n).data, c.isDigit = true := by
  intro c hc
  have hrw : (Nat.repr n).data = Nat.toDigitsCore 10 (n + 1) n [] := rfl
  rw [hrw] at hc
  exact toDigitsCore_digits (n + 1) n [] (by simp) c hc

/-- lastTwo of a string of length at least two is two of its characters. -/
theorem lastTwo_spec (s : String) (h : 2 ≤ s.data.length) :
    (lastTwo s).data.length = 2 ∧ ∀ c ∈ (lastTwo s).data, c ∈ s.data := by
  constructor
  · show (s.data.drop (s.data.length - 2)).length = 2
    rw [List.length_drop]
    omega
  · intro c hc
    exact List.drop_subset _ _ hc

/-- The padded month string of a zero-based month index is two decimal digit
characters. -/
theorem monthPart_spec (monthIdx : Nat) (h : monthIdx ≤ 11) :
    (padStart2 (Nat.repr (monthIdx + 1))).data.length = 2 ∧
      ∀ c ∈ (padStart2 (Nat.repr (monthIdx + 1))).data, c.isDigit = true := by
  interval_cases monthIdx <;> exact ⟨by decide, by decide⟩

/-- A list of length six is an explicit six-element list. -/
theorem exists_six {α : Type u_1} {l : List α} (h : l.length = 6) :
    ∃ a b c d e f, l = [a, b, c, d, e, f] := by
  rcases l with _ | ⟨a, l⟩
  · simp only [List.length_nil] at h
    omega
  rcases l with _ | ⟨b, l⟩
  · simp only [List.length_cons, List.length_nil] at h
    omega
  rcases l with _ | ⟨c, l⟩
  · simp only [List.length_cons, List.length_nil] at h
    omega
  rcases l with _ | ⟨d, l⟩
  · simp only [List.length_cons, List.length_nil] at h
    omega
  rcases l with _ | ⟨e, l⟩
  · simp only [List.length_cons, List.length_nil] at h
    omega
  rcases l with _ | ⟨f, l⟩
  · simp only [List.length_cons, List.length_nil] at h
    omega
  rcases l with _ | ⟨g, l⟩
  · exact ⟨a, b, c, d, e, f, rfl⟩
  · simp only [List.length_cons] at h
    omega

/-- Every character of the nanoid alphabet is in the class A-Z0-9. -/
theorem nanoid_upperAlnum : ∀ c ∈ nanoidAlphabet, isUpperAlnum c = true := by decide

/-- Amended C7: every number produced by generateCertificateNumber — for any
year whose decimal form has at least two digits, any real month index and
any six-character suffix drawn from the nanoid alphabet — satisfies
validateCertificateNumber.  (The issuance endpoint, however, does not call
this generator; see the counterexample above.) -/
theorem generateCertificateNumber_well_formed
    (year monthIdx : Nat) (suffix : String)
    (hy : 2 ≤ (Nat.repr year).data.length)
    (hm : monthIdx ≤ 11)
    (hs : suffix.data.length = 6)
    (hsa : ∀ c ∈ suffix.data, c ∈ nanoidAlphabet) :
    validateCertificateNumber (generateCertificateNumber year monthIdx suffix) = true := by
  obtain ⟨hylen, hymem⟩ := lastTwo_spec (Nat.repr year) hy
  obtain ⟨y1, y2, hy2⟩ := List.length_eq_two.mp hylen
  obtain ⟨hmlen, hmdig⟩ := monthPart_spec monthIdx hm
  obtain ⟨m1, m2, hm2⟩ := List.length_eq_two.mp hmlen
  obtain ⟨s1, s2, s3, s4, s5, s6, hs6⟩ := exists_six hs
  have hy1d : y1.isDigit = true :=
    repr_digits year y1 (hymem y1 (by rw [hy2]; simp))
  have hy2d : y2.isDigit = true :=
    repr_digits year y2 (hymem y2 (by rw [hy2]; simp))
  have hm1d : m1.isDigit = true := hmdig m1 (by rw [hm2]; simp)
  have hm2d : m2.isDigit = true := hmdig m2 (by rw [hm2]; simp)
  have hx1 : isUpperAlnum s1 = true := nanoid_upperAlnum s1 (hsa s1 (by rw [hs6]; simp))
  have hx2 : isUpperAlnum s2 = true := nanoid_upperAlnum s2 (hsa s2 (by rw [hs6]; simp))
  have hx3 : isUpperAlnum s3 = true := nanoid_upperAlnum s3 (hsa s3 (by rw [hs6]; simp))
  have hx4 : isUpperAlnum s4 = true := nanoid_upperAlnum s4 (hsa s4 (by rw [hs6]; simp))
  have hx5 : isUpperAlnum s5 = true := nanoid_upperAlnum s5 (hsa s5 (by rw [hs6]; simp))
  have hx6 : isUpperAlnum s6 = true := nanoid_upperAlnum s6 (hsa s6 (by rw [hs6]; simp))
  have hdata : (generateCertificateNumber year monthIdx suffix).data =
      'M' :: 'E' :: 'D' :: 'E' :: 'V' :: 'E' :: 'N' :: 'T' :: '-' ::
      y1 :: y2 :: m1 :: m2 :: '-' :: s1 :: s2 :: s3 :: s4 :: s5 :: s6 :: [] := by
    simp only [generateCertificateNumber, data_append, hy2, hm2, hs6]
    rfl
  unfold validateCertificateNumber
  rw [hdata]
  simp only [Bool.and_eq_true]
  repeat' apply And.intro
  all_goals first | assumption | decide

/-- Witness for the amended C7 at year 2025, October, suffix ABC123. -/
theorem generateCertificateNumber_well_formed_witness :
    validateCertificateNumber (generateCertificateNumber 2025 9 "ABC123") = true :=
  generateCertificateNumber_well_formed 2025 9 "ABC123"
    (by decide) (by decide) (by decide) (by decide)

end MedieventHub
